import Mathlib

/-!
# Verification of the aluminium production cost model (`src/app.py`)

Shallow embedding of the cost-and-CO₂ pipeline of `src/app.py` over exact
rationals.  Reference tables are lists of records; pandas boolean-mask sums
become sums over filtered lists; `iloc[0]` on a mask becomes `List.find?`.
The per-country loop with its `continue` guards becomes `List.filterMap`
over an `Option`-valued per-country computation.
-/

/-- One cleaned row of `data/total_co2_tot_Al.csv` (`sustainability_df`):
tonnage columns already comma-stripped, coerced, NaN→0, country columns
trimmed — exactly the state of the frame after the cleaning pass. -/
structure TradeRow where
  Bauxite_destination_m : String
  Bauxite_tonnes_m : ℚ
  Bauxite_destination_x : String
  Bauxite_tonnes_x : ℚ
  Bauxite_local_country : String
  Bauxite_local_tonnes : ℚ
  Alumina_destination_m : String
  Alumina_tonnes_m : ℚ
  Alumina_destination_x : String
  Alumina_tonnes_x : ℚ
  country1 : String
  avg_co2_kg_per_kwh : ℚ
  country2 : String
  energy_kwh_per_t : ℚ
deriving DecidableEq, Repr

/-- One row of `data/country_electricity_mix.csv` (`country_df`),
restricted to the columns the automated-mode pipeline reads. -/
structure CountryMix where
  country : String
  energy_kwh_per_t : ℚ
  labour_cost_eur_per_t : ℚ
deriving DecidableEq, Repr

/-- One row of `data/electricity_price_co2.csv` (`electricity_df`). -/
structure ElecRecord where
  country : String
  avg_electricity_price_eur_per_kwh : ℚ
  avg_co2_kg_per_kwh : ℚ
deriving DecidableEq, Repr

/-- One row of `data/alumina_costs.csv` (`alumina_df`). -/
structure AluminaRecord where
  country : String
  alumina_market_price_eur_per_t : ℚ
  alumina_transport_cost_eur_per_t : ℚ
deriving DecidableEq, Repr

/-- One row of `data/calc_petcoke_costs.csv` (`petcoke_df`). -/
structure PetcokeRecord where
  country : String
  petcoke_market_price_eur_per_t : ℚ
  petcoke_transport_cost_eur_per_t : ℚ
deriving DecidableEq, Repr

/-- The dictionary returned by `compute_total_co2_intensity_from_trade`. -/
structure CO2Info where
  Functional_unit : ℚ
  functional_unit_mode_1 : ℚ
  functional_unit_mode_2 : ℚ
  total_al : ℚ
  total_alumina : ℚ
  total_bauxite : ℚ
  elec_tco2_per_tal : ℚ
  bauxite_tco2_per_tal : ℚ
  anode_tco2_per_tal : ℚ
  reaction_tco2_per_tal : ℚ
deriving DecidableEq, Repr

/-- One entry of the `results` list appended at app.py:400-423
(the `Total CO₂ (t)` column added on the frame afterwards is also kept). -/
structure CountryResult where
  country : String
  electricity_price : ℚ
  grid_co2_intensity : ℚ
  electricity_cost : ℚ
  labour_cost : ℚ
  material_cost : ℚ
  carbon_cost : ℚ
  margin_cost : ℚ
  total_cost : ℚ
  total_co2 : ℚ
  electricity_co2 : ℚ
  elec_co2_int : ℚ
  bauxite_co2_int : ℚ
  anode_co2_int : ℚ
  reaction_co2_int : ℚ
  total_al : ℚ
deriving DecidableEq, Repr

/-! ## Fixed constants of `compute_total_co2_intensity_from_trade` (app.py:222-239) -/

def bauxite_grade : ℚ := 0.5

def stochiometric_al : ℚ := 1.889

def stochiometric_c : ℚ := 0.333

def stochiometric_co2 : ℚ := 1.222

def fuel_oil_alumina : ℚ := 0.093

def fuel_oil_co2 : ℚ := 3.52

def natural_gas_alumina : ℚ := 0.17

def natural_gas_co2 : ℚ := 1.98

def energy_alumina : ℚ := 0.109

def anode_footprint : ℚ := 1.5

/-! ## Mass-and-emissions balance (app.py:214-317) -/

/-- `df.loc[df[keycol] == country, valcol].sum()`: sum of a value column over
the rows whose key column equals the country. -/
def sumWhere (df : List TradeRow) (key : TradeRow → String) (val : TradeRow → ℚ)
    (c : String) : ℚ :=
  ((df.filter (fun r => key r == c)).map val).sum

/-- `total_bauxite_for_country` (app.py:242-247):
`(imports/1000 + domestic*1000 - exports/1000) / 1e6`. -/
def total_bauxite_for_country (df : List TradeRow) (c : String) : ℚ :=
  (sumWhere df (fun r => r.Bauxite_destination_m) (fun r => r.Bauxite_tonnes_m) c / 1000
    + sumWhere df (fun r => r.Bauxite_local_country) (fun r => r.Bauxite_local_tonnes) c * 1000
    - sumWhere df (fun r => r.Bauxite_destination_x) (fun r => r.Bauxite_tonnes_x) c / 1000)
    / 1000000

/-- `total_alumina_for_country` (app.py:249-253): net alumina trade
`(imports/1000 - exports/1000) / 1e6`. -/
def total_alumina_for_country (df : List TradeRow) (c : String) : ℚ :=
  (sumWhere df (fun r => r.Alumina_destination_m) (fun r => r.Alumina_tonnes_m) c / 1000
    - sumWhere df (fun r => r.Alumina_destination_x) (fun r => r.Alumina_tonnes_x) c / 1000)
    / 1000000

/-- `electricity_footprint_per_country` (app.py:255-257). -/
def electricity_footprint_per_country (df : List TradeRow) (c : String) : ℚ :=
  sumWhere df (fun r => r.country1) (fun r => r.avg_co2_kg_per_kwh) c

/-- `energy_intensity_per_country` (app.py:259-261). -/
def energy_intensity_per_country (df : List TradeRow) (c : String) : ℚ :=
  sumWhere df (fun r => r.country2) (fun r => r.energy_kwh_per_t) c / 1000

/-- `total_alumina` (app.py:264). -/
def total_alumina (df : List TradeRow) (c : String) : ℚ :=
  total_bauxite_for_country df c * bauxite_grade + total_alumina_for_country df c

/-- `total_al` (app.py:266). -/
def total_al (df : List TradeRow) (c : String) (current_efficiency : ℚ) : ℚ :=
  total_alumina df c / stochiometric_al * current_efficiency

/-- `total_reaction_co2` (app.py:268). -/
def total_reaction_co2 (df : List TradeRow) (c : String) (current_efficiency : ℚ) : ℚ :=
  total_al df c current_efficiency * stochiometric_co2 / current_efficiency

/-- `bauxite_co2` (app.py:270). -/
def bauxite_co2 (df : List TradeRow) (c : String) (bauxite_footprint : ℚ) : ℚ :=
  bauxite_footprint * total_bauxite_for_country df c

/-- `alumina_co2` (app.py:274-277); `energy_co2` there is
`electricity_footprint_per_country` (app.py:272). -/
def alumina_co2 (df : List TradeRow) (c : String) : ℚ :=
  (fuel_oil_alumina * fuel_oil_co2 + natural_gas_alumina * natural_gas_co2
    + energy_alumina * electricity_footprint_per_country df c) * total_alumina df c

/-- `energy_hh_mode_1` (app.py:279): `2.9806 * voltage / CE` (MWh / t Al). -/
def energy_hh_mode_1 (current_efficiency voltage_cell : ℚ) : ℚ :=
  2.9806 * voltage_cell / current_efficiency

/-- `total_energy_co2_mode_1` (app.py:282). -/
def total_energy_co2_mode_1 (df : List TradeRow) (c : String)
    (current_efficiency voltage_cell : ℚ) : ℚ :=
  electricity_footprint_per_country df c * energy_hh_mode_1 current_efficiency voltage_cell
    * total_al df c current_efficiency

/-- `total_energy_co2_mode_2` (app.py:283). -/
def total_energy_co2_mode_2 (df : List TradeRow) (c : String) (current_efficiency : ℚ) : ℚ :=
  electricity_footprint_per_country df c * energy_intensity_per_country df c
    * total_al df c current_efficiency

/-- `anode_co2` (app.py:285). -/
def anode_co2 (df : List TradeRow) (c : String) (current_efficiency : ℚ) : ℚ :=
  anode_footprint * total_al df c current_efficiency

/-- `total_co2_mode_1` (app.py:287). -/
def total_co2_mode_1 (df : List TradeRow) (c : String)
    (current_efficiency bauxite_footprint voltage_cell : ℚ) : ℚ :=
  total_reaction_co2 df c current_efficiency + bauxite_co2 df c bauxite_footprint
    + alumina_co2 df c + total_energy_co2_mode_1 df c current_efficiency voltage_cell
    + anode_co2 df c current_efficiency

/-- `total_co2_mode_2` (app.py:288). -/
def total_co2_mode_2 (df : List TradeRow) (c : String)
    (current_efficiency bauxite_footprint : ℚ) : ℚ :=
  total_reaction_co2 df c current_efficiency + bauxite_co2 df c bauxite_footprint
    + alumina_co2 df c + total_energy_co2_mode_2 df c current_efficiency
    + anode_co2 df c current_efficiency

/-- `compute_total_co2_intensity_from_trade` (app.py:214-317): the returned
dictionary, with each entry as in the source. -/
def compute_total_co2_intensity_from_trade (df : List TradeRow) (c : String)
    (current_efficiency bauxite_footprint voltage_cell : ℚ) : CO2Info :=
  let ta := total_al df c current_efficiency
  let fu1 := total_co2_mode_1 df c current_efficiency bauxite_footprint voltage_cell / ta
  let fu2 := total_co2_mode_2 df c current_efficiency bauxite_footprint / ta
  { Functional_unit := (fu1 + fu2) / 2
    functional_unit_mode_1 := fu1
    functional_unit_mode_2 := fu2
    total_al := ta
    total_alumina := total_alumina df c
    total_bauxite := total_bauxite_for_country df c
    elec_tco2_per_tal :=
      (total_energy_co2_mode_1 df c current_efficiency voltage_cell / ta
        + total_energy_co2_mode_2 df c current_efficiency / ta) / 2
    bauxite_tco2_per_tal := bauxite_co2 df c bauxite_footprint / ta
    anode_tco2_per_tal := anode_co2 df c current_efficiency / ta
    reaction_tco2_per_tal := total_reaction_co2 df c current_efficiency / ta }

/-! ## Cost composition and aggregation (app.py:322-427) -/

/-- The body of the per-country loop after all guards have passed
(app.py:334-423): builds the appended result record from the matched rows
and the emissions dictionary. -/
def mkResult (c : String) (cdata : CountryMix) (edata : ElecRecord)
    (alumina_row : AluminaRecord) (petcoke_row : PetcokeRecord) (co2_info : CO2Info)
    (carbon_tax margin_rate current_efficiency : ℚ) : CountryResult :=
  let E := cdata.energy_kwh_per_t
  let labour_cost := cdata.labour_cost_eur_per_t
  let electricity_price := edata.avg_electricity_price_eur_per_kwh
  let grid_co2_intensity := edata.avg_co2_kg_per_kwh
  let electricity_cost := E * electricity_price
  let electricity_co2 := E * grid_co2_intensity / 1000
  let total_co2 := co2_info.Functional_unit
  let alumina_cost := alumina_row.alumina_market_price_eur_per_t
    + alumina_row.alumina_transport_cost_eur_per_t
  let petcoke_cost := petcoke_row.petcoke_market_price_eur_per_t
    + petcoke_row.petcoke_transport_cost_eur_per_t
  let material_cost := (alumina_cost * 1.889 + petcoke_cost * 0.333) / current_efficiency
  let carbon_cost := total_co2 * carbon_tax
  let operational_cost := electricity_cost + labour_cost + material_cost
  let margin_cost := operational_cost * margin_rate
  let total_cost := operational_cost + margin_cost + carbon_cost
  { country := c
    electricity_price := electricity_price
    grid_co2_intensity := grid_co2_intensity
    electricity_cost := electricity_cost
    labour_cost := labour_cost
    material_cost := material_cost
    carbon_cost := carbon_cost
    margin_cost := margin_cost
    total_cost := total_cost
    total_co2 := total_co2
    electricity_co2 := electricity_co2
    elec_co2_int := co2_info.elec_tco2_per_tal
    bauxite_co2_int := co2_info.bauxite_tco2_per_tal
    anode_co2_int := co2_info.anode_tco2_per_tal
    reaction_co2_int := co2_info.reaction_tco2_per_tal
    total_al := co2_info.total_al }

/-- One iteration of the loop at app.py:324-423: `none` exactly when a
`continue` fires — a lookup miss in the electricity, alumina or petcoke
table (app.py:327-332), or the emissions guard (app.py:358-364).  The
`pd.isna` arm of that guard cannot fire over exact rationals; it coincides
with the `total_al == 0` arm (a NaN functional unit arises from the 0/0
divisions when `total_al` is zero). -/
def computeCountryResult (country_df : List CountryMix) (electricity_df : List ElecRecord)
    (alumina_df : List AluminaRecord) (petcoke_df : List PetcokeRecord)
    (sustainability_df : List TradeRow)
    (carbon_tax margin_rate current_efficiency bauxite_footprint voltage_cell : ℚ)
    (c : String) : Option CountryResult :=
  match country_df.find? (fun r => r.country == c),
      electricity_df.find? (fun r => r.country == c),
      alumina_df.find? (fun r => r.country == c),
      petcoke_df.find? (fun r => r.country == c) with
  | some cdata, some edata, some alumina_row, some petcoke_row =>
    if (compute_total_co2_intensity_from_trade sustainability_df c
        current_efficiency bauxite_footprint voltage_cell).total_al = 0 then none
    else some (mkResult c cdata edata alumina_row petcoke_row
      (compute_total_co2_intensity_from_trade sustainability_df c
        current_efficiency bauxite_footprint voltage_cell)
      carbon_tax margin_rate current_efficiency)
  | _, _, _, _ => none

/-- Insertion into a sorted list of strings, ordered lexicographically by
code points (the order Python's `sorted` uses on strings). -/
def insertSorted (s : String) : List String → List String
  | [] => [s]
  | t :: ts => if s.data ≤ t.data then s :: t :: ts else t :: insertSorted s ts

/-- Insertion sort on strings (`sorted(...)` at app.py:211). -/
def sortStrings : List String → List String
  | [] => []
  | s :: ss => insertSorted s (sortStrings ss)

/-- `pandas.unique`: keep the first occurrence of each value. -/
def uniqueKeepFirst (seen : List String) : List String → List String
  | [] => []
  | s :: ss =>
    if s ∈ seen then uniqueKeepFirst seen ss
    else s :: uniqueKeepFirst (s :: seen) ss

/-- `countries_selected = sorted(country_df["country"].unique())` (app.py:211). -/
def countries_selected (country_df : List CountryMix) : List String :=
  sortStrings (uniqueKeepFirst [] (country_df.map (fun r => r.country)))

/-- The final `results` collection (app.py:322-425): the loop over
`countries_selected` with its silent `continue` skips. -/
def runModel (country_df : List CountryMix) (electricity_df : List ElecRecord)
    (alumina_df : List AluminaRecord) (petcoke_df : List PetcokeRecord)
    (sustainability_df : List TradeRow)
    (carbon_tax margin_rate current_efficiency bauxite_footprint voltage_cell : ℚ) :
    List CountryResult :=
  (countries_selected country_df).filterMap
    (computeCountryResult country_df electricity_df alumina_df petcoke_df
      sustainability_df carbon_tax margin_rate current_efficiency bauxite_footprint
      voltage_cell)

/-! ## Scenario parameterization: generation-mix normalization -/

/-- Modelled from the spec: the scenario-parameterization layer's manual
generation-mix normalization is not present in `src/app.py` (this revision is
"AUTOMATED MODE ONLY"); per spec §4.4 the layer takes a candidate mix of
technology → non-negative share and a reference mix, and »if the sum of
shares is zero, falls back to the reference mix unchanged; otherwise divides
every share by the sum so they total exactly 1«. -/
def normalize_mix (manual ref_mix : List (String × ℚ)) : List (String × ℚ) :=
  let s := (manual.map Prod.snd).sum
  if s = 0 then ref_mix else manual.map (fun p => (p.1, p.2 / s))

/-! ## Helper lemmas -/

/-- A boolean-mask sum over a key nobody carries is zero. -/
theorem sumWhere_eq_zero {df : List TradeRow} {key : TradeRow → String}
    {val : TradeRow → ℚ} {c : String} (h : ∀ t ∈ df, key t ≠ c) :
    sumWhere df key val c = 0 := by
  unfold sumWhere
  have : df.filter (fun r => key r == c) = [] := by
    rw [List.filter_eq_nil_iff]
    intro a ha
    simpa using h a ha
  simp [this]

/-- The `total_al` entry of the emissions dictionary is the `total_al`
of the balance. -/
theorem compute_total_al (df : List TradeRow) (c : String) (ce bf v : ℚ) :
    (compute_total_co2_intensity_from_trade df c ce bf v).total_al = total_al df c ce := rfl

/-- Inverting a successful loop iteration: every guard passed, and the
produced record is the loop body's record. -/
theorem computeCountryResult_eq_some
    {cdf : List CountryMix} {edf : List ElecRecord} {adf : List AluminaRecord}
    {pdf : List PetcokeRecord} {sdf : List TradeRow} {ct mr ce bf v : ℚ}
    {c : String} {r : CountryResult}
    (h : computeCountryResult cdf edf adf pdf sdf ct mr ce bf v c = some r) :
    ∃ cdata edata alumina_row petcoke_row,
      cdf.find? (fun x => x.country == c) = some cdata
      ∧ edf.find? (fun x => x.country == c) = some edata
      ∧ adf.find? (fun x => x.country == c) = some alumina_row
      ∧ pdf.find? (fun x => x.country == c) = some petcoke_row
      ∧ total_al sdf c ce ≠ 0
      ∧ r = mkResult c cdata edata alumina_row petcoke_row
          (compute_total_co2_intensity_from_trade sdf c ce bf v) ct mr ce := by
  unfold computeCountryResult at h
  split at h
  · rename_i cdata edata alumina_row petcoke_row h1 h2 h3 h4
    split at h
    · exact absurd h (by simp)
    · rename_i hta
      rw [compute_total_al] at hta
      exact ⟨cdata, edata, alumina_row, petcoke_row, h1, h2, h3, h4, hta,
        (Option.some.inj h).symm⟩
  · exact absurd h (by simp)

/-- Inverting membership in the final result collection. -/
theorem mem_runModel
    {cdf : List CountryMix} {edf : List ElecRecord} {adf : List AluminaRecord}
    {pdf : List PetcokeRecord} {sdf : List TradeRow} {ct mr ce bf v : ℚ}
    {r : CountryResult}
    (hr : r ∈ runModel cdf edf adf pdf sdf ct mr ce bf v) :
    ∃ c cdata edata alumina_row petcoke_row,
      cdf.find? (fun x => x.country == c) = some cdata
      ∧ edf.find? (fun x => x.country == c) = some edata
      ∧ adf.find? (fun x => x.country == c) = some alumina_row
      ∧ pdf.find? (fun x => x.country == c) = some petcoke_row
      ∧ total_al sdf c ce ≠ 0
      ∧ r = mkResult c cdata edata alumina_row petcoke_row
          (compute_total_co2_intensity_from_trade sdf c ce bf v) ct mr ce := by
  obtain ⟨c, -, hc⟩ := List.mem_filterMap.mp hr
  exact ⟨c, computeCountryResult_eq_some hc⟩

/-! ## Claims -/

/-- C1: for every country reaching the emissions step with `total_al ≠ 0`,
the reported total CO₂ footprint per tonne of aluminium
(`Functional_unit`, app.py:293) equals
(reaction CO₂ + bauxite-mining CO₂ + alumina-refining CO₂
 + the arithmetic mean of the Mode-1 and Mode-2 electrolysis-energy CO₂
 + anode CO₂) / `total_al`: both energy modes are computed and averaged. -/
theorem C1_total_footprint_decomposition (df : List TradeRow) (c : String) (ce bf v : ℚ)
    (h : total_al df c ce ≠ 0) :
    (compute_total_co2_intensity_from_trade df c ce bf v).Functional_unit
      = (total_reaction_co2 df c ce + bauxite_co2 df c bf + alumina_co2 df c
          + (total_energy_co2_mode_1 df c ce v + total_energy_co2_mode_2 df c ce) / 2
          + anode_co2 df c ce) / total_al df c ce := by
  simp only [compute_total_co2_intensity_from_trade, total_co2_mode_1, total_co2_mode_2]
  field_simp
  ring

/-- C2: every row of the final result collection satisfies
`total_cost = operational_cost * (1 + margin_rate) + carbon_cost` with
`operational_cost = electricity_cost + labour_cost + material_cost`, and
`margin_cost = operational_cost * margin_rate` (app.py:396-398). -/
theorem C2_total_cost_identity
    (cdf : List CountryMix) (edf : List ElecRecord) (adf : List AluminaRecord)
    (pdf : List PetcokeRecord) (sdf : List TradeRow) (ct mr ce bf v : ℚ)
    (r : CountryResult) (hr : r ∈ runModel cdf edf adf pdf sdf ct mr ce bf v) :
    r.total_cost
      = (r.electricity_cost + r.labour_cost + r.material_cost) * (1 + mr) + r.carbon_cost
    ∧ r.margin_cost = (r.electricity_cost + r.labour_cost + r.material_cost) * mr := by
  obtain ⟨c, cdata, edata, arow, prow, -, -, -, -, -, rfl⟩ := mem_runModel hr
  constructor <;> (simp only [mkResult]; try ring)

/-- C3: every row's carbon cost equals the very total CO₂ footprint figure
reported in that row times the carbon tax (app.py:393): one canonical
derivation, no re-summing of the per-source breakdown. -/
theorem C3_carbon_cost_from_total_footprint
    (cdf : List CountryMix) (edf : List ElecRecord) (adf : List AluminaRecord)
    (pdf : List PetcokeRecord) (sdf : List TradeRow) (ct mr ce bf v : ℚ)
    (r : CountryResult) (hr : r ∈ runModel cdf edf adf pdf sdf ct mr ce bf v) :
    r.carbon_cost = r.total_co2 * ct := by
  obtain ⟨c, cdata, edata, arow, prow, -, -, -, -, -, rfl⟩ := mem_runModel hr
  simp only [mkResult]

/-- C4 (amended): with `total_bauxite > 0`, the grade constant `0.5 ∈ (0,1]`
and `current_efficiency ∈ (0,1]`, positivity of `total_alumina` and
`total_al` additionally needs the net alumina trade
(`imports − exports`, app.py:249-253) to be nonnegative — app.py:264 adds it
to the bauxite-derived alumina. -/
theorem C4_amended_positive_outputs (df : List TradeRow) (c : String) (ce : ℚ)
    (hb : 0 < total_bauxite_for_country df c)
    (hce1 : 0 < ce) (_hce2 : ce ≤ 1)
    (hnet : 0 ≤ total_alumina_for_country df c) :
    0 < total_alumina df c ∧ 0 < total_al df c ce := by
  have hg : bauxite_grade = 1 / 2 := by norm_num [bauxite_grade]
  have h1 : 0 < total_alumina df c := by
    rw [total_alumina, hg]; nlinarith
  have hs : (0 : ℚ) < stochiometric_al := by norm_num [stochiometric_al]
  refine ⟨h1, ?_⟩
  unfold total_al
  exact mul_pos (div_pos h1 hs) hce1

/-- C5: a country missing from the electricity, alumina-cost or petcoke
table is skipped by the guard at app.py:327-332; a country absent from every
country column of the trade table has `total_al = 0` and is skipped by the
guard at app.py:358-364 — either way it never appears in the results. -/
theorem C5_missing_reference_excluded
    (cdf : List CountryMix) (edf : List ElecRecord) (adf : List AluminaRecord)
    (pdf : List PetcokeRecord) (sdf : List TradeRow) (ct mr ce bf v : ℚ) (c : String)
    (hmiss : (∀ e ∈ edf, e.country ≠ c) ∨ (∀ a ∈ adf, a.country ≠ c)
      ∨ (∀ p ∈ pdf, p.country ≠ c)
      ∨ (∀ t ∈ sdf, t.Bauxite_destination_m ≠ c ∧ t.Bauxite_destination_x ≠ c
          ∧ t.Bauxite_local_country ≠ c ∧ t.Alumina_destination_m ≠ c
          ∧ t.Alumina_destination_x ≠ c ∧ t.country1 ≠ c ∧ t.country2 ≠ c))
    (r : CountryResult) (hr : r ∈ runModel cdf edf adf pdf sdf ct mr ce bf v) :
    r.country ≠ c := by
  obtain ⟨c', cdata, edata, arow, prow, h1, h2, h3, h4, hta, rfl⟩ := mem_runModel hr
  intro hc
  simp only [mkResult] at hc
  subst hc
  rcases hmiss with hm | hm | hm | hm
  · have hp := List.find?_some h2
    simp only [beq_iff_eq] at hp
    exact hm edata (List.mem_of_find?_eq_some h2) hp
  · have hp := List.find?_some h3
    simp only [beq_iff_eq] at hp
    exact hm arow (List.mem_of_find?_eq_some h3) hp
  · have hp := List.find?_some h4
    simp only [beq_iff_eq] at hp
    exact hm prow (List.mem_of_find?_eq_some h4) hp
  · apply hta
    have hbx : total_bauxite_for_country sdf c' = 0 := by
      unfold total_bauxite_for_country
      rw [sumWhere_eq_zero (fun t ht => (hm t ht).1),
        sumWhere_eq_zero (fun t ht => (hm t ht).2.2.1),
        sumWhere_eq_zero (fun t ht => (hm t ht).2.1)]
      norm_num
    have hal : total_alumina_for_country sdf c' = 0 := by
      unfold total_alumina_for_country
      rw [sumWhere_eq_zero (fun t ht => (hm t ht).2.2.2.1),
        sumWhere_eq_zero (fun t ht => (hm t ht).2.2.2.2.1)]
      norm_num
    unfold total_al total_alumina
    rw [hbx, hal]
    simp

/-- C6 (amended): two runs differing only in `cell_voltage` leave Mode-2
energy CO₂ and all non-electricity components identical; Mode-1 energy CO₂
(and the Mode-1 functional unit) genuinely changes provided the trade-table
grid CO₂ intensity and `total_al` are nonzero and the efficiency is nonzero
— with a zero grid intensity both runs give Mode-1 CO₂ = 0. -/
theorem C6_amended_voltage_frame (df : List TradeRow) (c : String) (ce bf v1 v2 : ℚ)
    (hce : ce ≠ 0) (hv : v1 ≠ v2)
    (he : electricity_footprint_per_country df c ≠ 0)
    (ha : total_al df c ce ≠ 0) :
    total_energy_co2_mode_1 df c ce v1 ≠ total_energy_co2_mode_1 df c ce v2
    ∧ (compute_total_co2_intensity_from_trade df c ce bf v1).functional_unit_mode_1
        ≠ (compute_total_co2_intensity_from_trade df c ce bf v2).functional_unit_mode_1
    ∧ (compute_total_co2_intensity_from_trade df c ce bf v1).functional_unit_mode_2
        = (compute_total_co2_intensity_from_trade df c ce bf v2).functional_unit_mode_2
    ∧ (compute_total_co2_intensity_from_trade df c ce bf v1).bauxite_tco2_per_tal
        = (compute_total_co2_intensity_from_trade df c ce bf v2).bauxite_tco2_per_tal
    ∧ (compute_total_co2_intensity_from_trade df c ce bf v1).anode_tco2_per_tal
        = (compute_total_co2_intensity_from_trade df c ce bf v2).anode_tco2_per_tal
    ∧ (compute_total_co2_intensity_from_trade df c ce bf v1).reaction_tco2_per_tal
        = (compute_total_co2_intensity_from_trade df c ce bf v2).reaction_tco2_per_tal
    ∧ (compute_total_co2_intensity_from_trade df c ce bf v1).total_al
        = (compute_total_co2_intensity_from_trade df c ce bf v2).total_al := by
  have hE1 : total_energy_co2_mode_1 df c ce v1 ≠ total_energy_co2_mode_1 df c ce v2 := by
    intro h
    apply hv
    unfold total_energy_co2_mode_1 energy_hh_mode_1 at h
    have hk : electricity_footprint_per_country df c * (2.9806 / ce) * total_al df c ce ≠ 0 :=
      mul_ne_zero (mul_ne_zero he (div_ne_zero (by norm_num) hce)) ha
    have h' : electricity_footprint_per_country df c * (2.9806 / ce) * total_al df c ce * v1
        = electricity_footprint_per_country df c * (2.9806 / ce) * total_al df c ce * v2 := by
      linear_combination h
    exact mul_left_cancel₀ hk h'
  have hfu1 : (compute_total_co2_intensity_from_trade df c ce bf v1).functional_unit_mode_1
      ≠ (compute_total_co2_intensity_from_trade df c ce bf v2).functional_unit_mode_1 := by
    simp only [compute_total_co2_intensity_from_trade]
    intro h
    apply hE1
    rw [div_eq_div_iff ha ha] at h
    have h' := mul_right_cancel₀ ha h
    unfold total_co2_mode_1 at h'
    linarith
  exact ⟨hE1, hfu1, rfl, rfl, rfl, rfl, rfl⟩

/-- C7 (amended): the drop condition actually enforced by the aggregator is
`total_al = 0` (app.py:358-364), not `total_bauxite ≤ 0`: a country whose
`total_al` resolves to zero never appears in the results; `total_bauxite ≤ 0`
alone does not drop a country when net alumina imports make `total_al`
nonzero. -/
theorem C7_amended_zero_al_dropped
    (cdf : List CountryMix) (edf : List ElecRecord) (adf : List AluminaRecord)
    (pdf : List PetcokeRecord) (sdf : List TradeRow) (ct mr ce bf v : ℚ) (c : String)
    (h : total_al sdf c ce = 0)
    (r : CountryResult) (hr : r ∈ runModel cdf edf adf pdf sdf ct mr ce bf v) :
    r.country ≠ c := by
  obtain ⟨c', cdata, edata, arow, prow, -, -, -, -, hta, rfl⟩ := mem_runModel hr
  intro hc
  simp only [mkResult] at hc
  subst hc
  exact hta h

/-- Alumina-refining CO₂ per tonne of aluminium: folded into both mode
totals (app.py:287-288) but never stored as a breakdown column
(app.py:417-420). -/
def alumina_intensity (df : List TradeRow) (c : String) (ce : ℚ) : ℚ :=
  alumina_co2 df c / total_al df c ce

/-- C9: the four stored per-source intensities (electricity averaged over the
two modes, bauxite, anode, reaction) sum to the row's total footprint minus
the alumina-refining intensity, hence to strictly less than the total
whenever that intensity is positive. -/
theorem C9_breakdown_omits_alumina
    (cdf : List CountryMix) (edf : List ElecRecord) (adf : List AluminaRecord)
    (pdf : List PetcokeRecord) (sdf : List TradeRow) (ct mr ce bf v : ℚ)
    (r : CountryResult) (hr : r ∈ runModel cdf edf adf pdf sdf ct mr ce bf v) :
    r.elec_co2_int + r.bauxite_co2_int + r.anode_co2_int + r.reaction_co2_int
      = r.total_co2 - alumina_intensity sdf r.country ce
    ∧ (0 < alumina_intensity sdf r.country ce →
        r.elec_co2_int + r.bauxite_co2_int + r.anode_co2_int + r.reaction_co2_int
          < r.total_co2) := by
  obtain ⟨c, cdata, edata, arow, prow, -, -, -, -, hta, rfl⟩ := mem_runModel hr
  have hmain :
      (mkResult c cdata edata arow prow
          (compute_total_co2_intensity_from_trade sdf c ce bf v) ct mr ce).elec_co2_int
        + (mkResult c cdata edata arow prow
          (compute_total_co2_intensity_from_trade sdf c ce bf v) ct mr ce).bauxite_co2_int
        + (mkResult c cdata edata arow prow
          (compute_total_co2_intensity_from_trade sdf c ce bf v) ct mr ce).anode_co2_int
        + (mkResult c cdata edata arow prow
          (compute_total_co2_intensity_from_trade sdf c ce bf v) ct mr ce).reaction_co2_int
      = (mkResult c cdata edata arow prow
          (compute_total_co2_intensity_from_trade sdf c ce bf v) ct mr ce).total_co2
        - alumina_intensity sdf
            (mkResult c cdata edata arow prow
              (compute_total_co2_intensity_from_trade sdf c ce bf v) ct mr ce).country ce := by
    simp only [mkResult, compute_total_co2_intensity_from_trade, alumina_intensity,
      total_co2_mode_1, total_co2_mode_2]
    field_simp
    ring
  exact ⟨hmain, fun hpos => by rw [hmain]; linarith⟩

/-- C10 (spec-modelled layer): normalizing a zero-sum manual mix returns the
reference mix unchanged; for a nonzero sum every share is divided by the sum
and the normalized shares total exactly 1 (so in particular within any
floating tolerance such as 1e-6). -/
theorem C10_normalize_mix (manual ref_mix : List (String × ℚ)) :
    normalize_mix manual ref_mix
      = (if (manual.map Prod.snd).sum = 0 then ref_mix
          else manual.map (fun p => (p.1, p.2 / (manual.map Prod.snd).sum)))
    ∧ ((manual.map Prod.snd).sum ≠ 0 →
        ((normalize_mix manual ref_mix).map Prod.snd).sum = 1) := by
  refine ⟨rfl, fun hs => ?_⟩
  unfold normalize_mix
  simp only [if_neg hs, List.map_map]
  have hcomp : (Prod.snd ∘ fun p : String × ℚ => (p.1, p.2 / (manual.map Prod.snd).sum))
      = fun p : String × ℚ => p.2 * ((manual.map Prod.snd).sum)⁻¹ := by
    funext p
    simp [div_eq_mul_inv]
  rw [hcomp, List.sum_map_mul_right, ← div_eq_mul_inv, div_self hs]

/-! ## Concrete scenarios -/

/-- A trade row with empty country keys and zero tonnages. -/
def trBlank : TradeRow :=
  { Bauxite_destination_m := "", Bauxite_tonnes_m := 0
    Bauxite_destination_x := "", Bauxite_tonnes_x := 0
    Bauxite_local_country := "", Bauxite_local_tonnes := 0
    Alumina_destination_m := "", Alumina_tonnes_m := 0
    Alumina_destination_x := "", Alumina_tonnes_x := 0
    country1 := "", avg_co2_kg_per_kwh := 0
    country2 := "", energy_kwh_per_t := 0 }

/-- Scenario S, matching the spec's end-to-end scenario: country `A` with
`energy_kwh_per_t = 13000`, `labour_cost_eur_per_t = 200`; country `B` is a
spectator present only in the electricity-mix and electricity-price tables. -/
def cdfS : List CountryMix := [⟨"A", 13000, 200⟩, ⟨"B", 10000, 100⟩]

def edfS : List ElecRecord := [⟨"A", 0.05, 0.6⟩, ⟨"B", 0.05, 0.6⟩]

def adfS : List AluminaRecord := [⟨"A", 380, 20⟩]

def pdfS : List PetcokeRecord := [⟨"A", 280, 20⟩]

def sdfS : List TradeRow :=
  [{ trBlank with Bauxite_local_country := "A", Bauxite_local_tonnes := 1 },
    { trBlank with country1 := "A", avg_co2_kg_per_kwh := 0.6 },
    { trBlank with country2 := "A", energy_kwh_per_t := 13000 }]

theorem tbS : total_bauxite_for_country sdfS "A" = 1 / 1000 := by
  simp [total_bauxite_for_country, sumWhere, sdfS, trBlank]
  norm_num

theorem tnS : total_alumina_for_country sdfS "A" = 0 := by
  simp [total_alumina_for_country, sumWhere, sdfS, trBlank]

theorem haS : total_al sdfS "A" 0.9 = 9 / 37780 := by
  rw [total_al, total_alumina, tbS, tnS]
  norm_num [bauxite_grade, stochiometric_al]

theorem efS : electricity_footprint_per_country sdfS "A" = 3 / 5 := by
  simp [electricity_footprint_per_country, sumWhere, sdfS, trBlank]
  norm_num

/-- The result record scenario S produces for country `A`. -/
def rAS : CountryResult :=
  mkResult "A" ⟨"A", 13000, 200⟩ ⟨"A", 0.05, 0.6⟩ ⟨"A", 380, 20⟩ ⟨"A", 280, 20⟩
    (compute_total_co2_intensity_from_trade sdfS "A" 0.9 0.035 4.64) 60 0.15 0.9

theorem ccrA : computeCountryResult cdfS edfS adfS pdfS sdfS 60 0.15 0.9 0.035 4.64 "A"
    = some rAS := by
  have hstep : computeCountryResult cdfS edfS adfS pdfS sdfS 60 0.15 0.9 0.035 4.64 "A"
      = if (compute_total_co2_intensity_from_trade sdfS "A" 0.9 0.035 4.64).total_al = 0
        then none else some rAS := rfl
  rw [hstep, if_neg]
  rw [compute_total_al, haS]
  norm_num

theorem ccrB : computeCountryResult cdfS edfS adfS pdfS sdfS 60 0.15 0.9 0.035 4.64 "B"
    = none := rfl

theorem runModelS_eq : runModel cdfS edfS adfS pdfS sdfS 60 0.15 0.9 0.035 4.64 = [rAS] := by
  have hcs : countries_selected cdfS = ["A", "B"] := rfl
  unfold runModel
  rw [hcs]
  simp only [List.filterMap_cons, ccrA, ccrB, List.filterMap_nil]

/-- Scenario for C4: country `A` has domestic bauxite but exports far more
alumina than its bauxite yields. -/
def sdf4 : List TradeRow :=
  [{ trBlank with Bauxite_local_country := "A", Bauxite_local_tonnes := 1 },
    { trBlank with Alumina_destination_x := "A", Alumina_tonnes_x := 1000000000 }]

theorem tb4 : total_bauxite_for_country sdf4 "A" = 1 / 1000 := by
  simp [total_bauxite_for_country, sumWhere, sdf4, trBlank]
  norm_num

theorem talum4 : total_alumina sdf4 "A" = -1999 / 2000 := by
  have hn : total_alumina_for_country sdf4 "A" = -1 := by
    simp [total_alumina_for_country, sumWhere, sdf4, trBlank]
    norm_num
  rw [total_alumina, tb4, hn]
  norm_num [bauxite_grade]

/-- C4 as stated is false: in scenario `sdf4`, `total_bauxite > 0`, the grade
constant lies in `(0,1]` and `current_efficiency = 0.9 ∈ (0,1]`, yet net
alumina exports drive `total_alumina` (hence `total_al`) negative. -/
theorem C4_counterexample :
    0 < total_bauxite_for_country sdf4 "A"
    ∧ 0 < bauxite_grade ∧ bauxite_grade ≤ 1
    ∧ (0 : ℚ) < 0.9 ∧ (0.9 : ℚ) ≤ 1
    ∧ ¬ (0 < total_alumina sdf4 "A" ∧ 0 < total_al sdf4 "A" 0.9) := by
  refine ⟨by rw [tb4]; norm_num, by norm_num [bauxite_grade], by norm_num [bauxite_grade],
    by norm_num, by norm_num, ?_⟩
  rintro ⟨h1, -⟩
  rw [talum4] at h1
  norm_num at h1

/-- Witness for the amended C4 at scenario S. -/
theorem C4_amended_positive_outputs_witness :
    0 < total_alumina sdfS "A" ∧ 0 < total_al sdfS "A" 0.9 :=
  C4_amended_positive_outputs sdfS "A" 0.9 (by rw [tbS]; norm_num) (by norm_num)
    (by norm_num) (le_of_eq tnS.symm)

/-- Scenario for C6: domestic bauxite only — no `country1` row, so the
trade-table grid CO₂ intensity is zero. -/
def sdf6 : List TradeRow :=
  [{ trBlank with Bauxite_local_country := "A", Bauxite_local_tonnes := 1 }]

theorem ef6 : electricity_footprint_per_country sdf6 "A" = 0 := by
  simp [electricity_footprint_per_country, sumWhere, sdf6, trBlank]

theorem ha6 : total_al sdf6 "A" 0.9 = 9 / 37780 := by
  have hb : total_bauxite_for_country sdf6 "A" = 1 / 1000 := by
    simp [total_bauxite_for_country, sumWhere, sdf6, trBlank]
    norm_num
  have hn : total_alumina_for_country sdf6 "A" = 0 := by
    simp [total_alumina_for_country, sumWhere, sdf6, trBlank]
  rw [total_al, total_alumina, hb, hn]
  norm_num [bauxite_grade, stochiometric_al]

/-- C6 as stated is false: in scenario `sdf6` the voltages 4 and 5 differ
(and the country has `total_al ≠ 0`, so it reaches the result set), yet the
Mode-1 energy-CO₂ estimate is unchanged, because the trade-table grid CO₂
intensity is zero. -/
theorem C6_counterexample :
    (4 : ℚ) ≠ 5
    ∧ total_al sdf6 "A" 0.9 ≠ 0
    ∧ total_energy_co2_mode_1 sdf6 "A" 0.9 4 = total_energy_co2_mode_1 sdf6 "A" 0.9 5
    ∧ (compute_total_co2_intensity_from_trade sdf6 "A" 0.9 0.035 4).functional_unit_mode_1
      = (compute_total_co2_intensity_from_trade sdf6 "A" 0.9 0.035 5).functional_unit_mode_1 := by
  refine ⟨by norm_num, by rw [ha6]; norm_num, ?_, ?_⟩
  · simp [total_energy_co2_mode_1, ef6]
  · simp only [compute_total_co2_intensity_from_trade, total_co2_mode_1,
      total_energy_co2_mode_1, ef6]
    simp

/-- Witness for the amended C6 at scenario S (grid CO₂ intensity 0.6 ≠ 0). -/
theorem C6_amended_voltage_frame_witness :
    total_energy_co2_mode_1 sdfS "A" 0.9 4 ≠ total_energy_co2_mode_1 sdfS "A" 0.9 5
    ∧ (compute_total_co2_intensity_from_trade sdfS "A" 0.9 0.035 4).functional_unit_mode_1
        ≠ (compute_total_co2_intensity_from_trade sdfS "A" 0.9 0.035 5).functional_unit_mode_1
    ∧ (compute_total_co2_intensity_from_trade sdfS "A" 0.9 0.035 4).functional_unit_mode_2
        = (compute_total_co2_intensity_from_trade sdfS "A" 0.9 0.035 5).functional_unit_mode_2
    ∧ (compute_total_co2_intensity_from_trade sdfS "A" 0.9 0.035 4).bauxite_tco2_per_tal
        = (compute_total_co2_intensity_from_trade sdfS "A" 0.9 0.035 5).bauxite_tco2_per_tal
    ∧ (compute_total_co2_intensity_from_trade sdfS "A" 0.9 0.035 4).anode_tco2_per_tal
        = (compute_total_co2_intensity_from_trade sdfS "A" 0.9 0.035 5).anode_tco2_per_tal
    ∧ (compute_total_co2_intensity_from_trade sdfS "A" 0.9 0.035 4).reaction_tco2_per_tal
        = (compute_total_co2_intensity_from_trade sdfS "A" 0.9 0.035 5).reaction_tco2_per_tal
    ∧ (compute_total_co2_intensity_from_trade sdfS "A" 0.9 0.035 4).total_al
        = (compute_total_co2_intensity_from_trade sdfS "A" 0.9 0.035 5).total_al :=
  C6_amended_voltage_frame sdfS "A" 0.9 0.035 4 5 (by norm_num) (by norm_num)
    (by rw [efS]; norm_num) (by rw [haS]; norm_num)

/-- Scenario for C7: country `A` imports alumina directly and mines no
bauxite; country `B` sits in every cost table but nowhere in the trade
table. -/
def cdf7 : List CountryMix := [⟨"A", 1, 1⟩, ⟨"B", 1, 1⟩]

def edf7 : List ElecRecord := [⟨"A", 1, 1⟩, ⟨"B", 1, 1⟩]

def adf7 : List AluminaRecord := [⟨"A", 1, 1⟩, ⟨"B", 1, 1⟩]

def pdf7 : List PetcokeRecord := [⟨"A", 1, 1⟩, ⟨"B", 1, 1⟩]

def sdf7 : List TradeRow :=
  [{ trBlank with Alumina_destination_m := "A", Alumina_tonnes_m := 2000000000 }]

theorem tb7 : total_bauxite_for_country sdf7 "A" = 0 := by
  simp [total_bauxite_for_country, sumWhere, sdf7, trBlank]

theorem ha7 : total_al sdf7 "A" 0.9 = 1800 / 1889 := by
  have hn : total_alumina_for_country sdf7 "A" = 2 := by
    simp [total_alumina_for_country, sumWhere, sdf7, trBlank]
    norm_num
  rw [total_al, total_alumina, tb7, hn]
  norm_num [bauxite_grade, stochiometric_al]

theorem hb7 : total_al sdf7 "B" 0.9 = 0 := by
  have hb : total_bauxite_for_country sdf7 "B" = 0 := by
    simp [total_bauxite_for_country, sumWhere, sdf7, trBlank]
  have hn : total_alumina_for_country sdf7 "B" = 0 := by
    simp [total_alumina_for_country, sumWhere, sdf7, trBlank]
  rw [total_al, total_alumina, hb, hn]
  simp

/-- The result record scenario 7 produces for country `A`. -/
def rA7 : CountryResult :=
  mkResult "A" ⟨"A", 1, 1⟩ ⟨"A", 1, 1⟩ ⟨"A", 1, 1⟩ ⟨"A", 1, 1⟩
    (compute_total_co2_intensity_from_trade sdf7 "A" 0.9 0.035 4.64) 60 0.15 0.9

theorem ccrA7 : computeCountryResult cdf7 edf7 adf7 pdf7 sdf7 60 0.15 0.9 0.035 4.64 "A"
    = some rA7 := by
  have hstep : computeCountryResult cdf7 edf7 adf7 pdf7 sdf7 60 0.15 0.9 0.035 4.64 "A"
      = if (compute_total_co2_intensity_from_trade sdf7 "A" 0.9 0.035 4.64).total_al = 0
        then none else some rA7 := rfl
  rw [hstep, if_neg]
  rw [compute_total_al, ha7]
  norm_num

theorem ccrB7 : computeCountryResult cdf7 edf7 adf7 pdf7 sdf7 60 0.15 0.9 0.035 4.64 "B"
    = none := by
  have hstep : computeCountryResult cdf7 edf7 adf7 pdf7 sdf7 60 0.15 0.9 0.035 4.64 "B"
      = if (compute_total_co2_intensity_from_trade sdf7 "B" 0.9 0.035 4.64).total_al = 0
        then none
        else some (mkResult "B" ⟨"B", 1, 1⟩ ⟨"B", 1, 1⟩ ⟨"B", 1, 1⟩ ⟨"B", 1, 1⟩
          (compute_total_co2_intensity_from_trade sdf7 "B" 0.9 0.035 4.64) 60 0.15 0.9) := rfl
  rw [hstep, if_pos]
  rw [compute_total_al, hb7]

theorem runModel7_eq : runModel cdf7 edf7 adf7 pdf7 sdf7 60 0.15 0.9 0.035 4.64 = [rA7] := by
  have hcs : countries_selected cdf7 = ["A", "B"] := rfl
  unfold runModel
  rw [hcs]
  simp only [List.filterMap_cons, ccrA7, ccrB7, List.filterMap_nil]

/-- C7 as stated is false: in scenario 7 country `A` has
`total_bauxite = 0 ≤ 0` yet appears in the final result collection, because
its net alumina imports give it a nonzero `total_al`. -/
theorem C7_counterexample :
    total_bauxite_for_country sdf7 "A" ≤ 0
    ∧ (runModel cdf7 edf7 adf7 pdf7 sdf7 60 0.15 0.9 0.035 4.64).map (fun r => r.country)
      = ["A"] := by
  refine ⟨le_of_eq tb7, ?_⟩
  rw [runModel7_eq]
  rfl

/-- Witness for the amended C7: in scenario 7, `B` has `total_al = 0` and the
one produced row is not `B`'s. -/
theorem C7_amended_zero_al_dropped_witness : rA7.country ≠ "B" :=
  C7_amended_zero_al_dropped cdf7 edf7 adf7 pdf7 sdf7 60 0.15 0.9 0.035 4.64 "B" hb7 rA7
    (by rw [runModel7_eq]; exact List.mem_singleton.mpr rfl)

theorem rAS_mem : rAS ∈ runModel cdfS edfS adfS pdfS sdfS 60 0.15 0.9 0.035 4.64 := by
  rw [runModelS_eq]
  exact List.mem_singleton.mpr rfl

/-- Witness for C1 at scenario S. -/
theorem C1_total_footprint_decomposition_witness :
    total_al sdfS "A" 0.9 ≠ 0
    ∧ (compute_total_co2_intensity_from_trade sdfS "A" 0.9 0.035 4.64).Functional_unit
      = (total_reaction_co2 sdfS "A" 0.9 + bauxite_co2 sdfS "A" 0.035 + alumina_co2 sdfS "A"
          + (total_energy_co2_mode_1 sdfS "A" 0.9 4.64 + total_energy_co2_mode_2 sdfS "A" 0.9)
            / 2
          + anode_co2 sdfS "A" 0.9) / total_al sdfS "A" 0.9 :=
  ⟨by rw [haS]; norm_num,
    C1_total_footprint_decomposition sdfS "A" 0.9 0.035 4.64 (by rw [haS]; norm_num)⟩

/-- Witness for C2 at scenario S. -/
theorem C2_total_cost_identity_witness :
    rAS ∈ runModel cdfS edfS adfS pdfS sdfS 60 0.15 0.9 0.035 4.64
    ∧ (rAS.total_cost
        = (rAS.electricity_cost + rAS.labour_cost + rAS.material_cost) * (1 + 0.15)
          + rAS.carbon_cost
      ∧ rAS.margin_cost = (rAS.electricity_cost + rAS.labour_cost + rAS.material_cost) * 0.15) :=
  ⟨rAS_mem, C2_total_cost_identity cdfS edfS adfS pdfS sdfS 60 0.15 0.9 0.035 4.64 rAS rAS_mem⟩

/-- Witness for C3 at scenario S. -/
theorem C3_carbon_cost_from_total_footprint_witness :
    rAS ∈ runModel cdfS edfS adfS pdfS sdfS 60 0.15 0.9 0.035 4.64
    ∧ rAS.carbon_cost = rAS.total_co2 * 60 :=
  ⟨rAS_mem,
    C3_carbon_cost_from_total_footprint cdfS edfS adfS pdfS sdfS 60 0.15 0.9 0.035 4.64 rAS
      rAS_mem⟩

/-- Witness for C5 at scenario S: `B` sits in the electricity table but not
in the alumina-cost table, and the one produced row is not `B`'s. -/
theorem C5_missing_reference_excluded_witness : rAS.country ≠ "B" :=
  C5_missing_reference_excluded cdfS edfS adfS pdfS sdfS 60 0.15 0.9 0.035 4.64 "B"
    (Or.inr (Or.inl (by decide))) rAS rAS_mem

theorem halint : 0 < alumina_intensity sdfS "A" 0.9 := by
  simp only [alumina_intensity, alumina_co2, total_alumina]
  rw [efS, tbS, tnS, haS]
  norm_num [fuel_oil_alumina, fuel_oil_co2, natural_gas_alumina, natural_gas_co2,
    energy_alumina, bauxite_grade]

/-- Witness for C9 at scenario S: the stored breakdown misses exactly the
alumina intensity, which is positive there, so the breakdown sums to
strictly less than the reported total. -/
theorem C9_breakdown_omits_alumina_witness :
    (rAS.elec_co2_int + rAS.bauxite_co2_int + rAS.anode_co2_int + rAS.reaction_co2_int
      = rAS.total_co2 - alumina_intensity sdfS rAS.country 0.9)
    ∧ rAS.elec_co2_int + rAS.bauxite_co2_int + rAS.anode_co2_int + rAS.reaction_co2_int
        < rAS.total_co2 :=
  ⟨(C9_breakdown_omits_alumina cdfS edfS adfS pdfS sdfS 60 0.15 0.9 0.035 4.64 rAS rAS_mem).1,
    (C9_breakdown_omits_alumina cdfS edfS adfS pdfS sdfS 60 0.15 0.9 0.035 4.64 rAS
      rAS_mem).2 halint⟩

/-- C8 as stated is false: in the spec's own end-to-end scenario the code's
material cost is stoichiometrically weighted and divided by the efficiency,
`(400·1.889 + 300·0.333)/0.9 = 8555/9 ≈ 950.56`, not the flat 700. -/
theorem C8_counterexample :
    (runModel cdfS edfS adfS pdfS sdfS 60 0.15 0.9 0.035 4.64).map (fun r => r.material_cost)
      = [8555 / 9]
    ∧ (8555 / 9 : ℚ) ≠ 700 := by
  refine ⟨?_, by norm_num⟩
  rw [runModelS_eq]
  simp [rAS, mkResult]
  norm_num

/-- C8 (amended): in that scenario the pipeline yields
`electricity_cost = 650`, `material_cost = 8555/9`,
`operational_cost = 650 + 200 + 8555/9 = 16205/9` and
`margin_cost = 16205/9 · 0.15 = 3241/12`. -/
theorem C8_amended_cost_values :
    (runModel cdfS edfS adfS pdfS sdfS 60 0.15 0.9 0.035 4.64).map
        (fun r => (r.electricity_cost, r.material_cost,
          r.electricity_cost + r.labour_cost + r.material_cost, r.margin_cost))
      = [(650, 8555 / 9, 16205 / 9, 3241 / 12)] := by
  rw [runModelS_eq]
  simp [rAS, mkResult]
  norm_num

/-- Witness for C10 on a nonzero-sum manual mix. -/
theorem C10_normalize_mix_witness :
    ([("coal", (3 : ℚ)), ("wind", 1)].map Prod.snd).sum ≠ 0
    ∧ ((normalize_mix [("coal", 3), ("wind", 1)] [("hydro", 1)]).map Prod.snd).sum = 1 :=
  ⟨by simp; norm_num, (C10_normalize_mix [("coal", 3), ("wind", 1)] [("hydro", 1)]).2
    (by simp; norm_num)⟩
